import Mathlib

/-!
Shallow embedding of the cfyTracker price-tracking pipeline.

The embedded code lives in two serverless functions and two UI
components:
* `supabase/functions/update-prices/index.ts` — the hourly sweep:
  `scrapeProduct`, the per-product reconcile/update loop, and
  `checkPriceAlerts`.
* the track-product function (`src/unnamed/part_001`) — first-time
  tracking: URL validation, duplicate check, `scrapeProduct` with a
  catch-all fallback, and the insert.
* the intake form (`ProductForm` in
  `src/components/products/PriceHistoryChart.tsx`) —
  `validateCashifyUrl` and the submit handler that gates requests to
  the track-product function.
* the price-alert dialog (`src/unnamed/part_002`) — `handleToggleAlert`
  and `handleDeleteAlert`.

Regex matching over the raw HTML is the boundary of the embedding: a
`MatchResults` value records, for each pattern stage of `scrapeProduct`,
what the regex produced (the captured group, or `none`). Every markup
input induces exactly one `MatchResults`, so universally quantified
statements over `MatchResults` cover all markup inputs. Everything from
the captures onward (numeric parsing, range filtering, fallback order,
out-of-stock gating and backfill, the failure check, the final record)
is translated statement by statement from the source.
-/

namespace CfyTracker

/-- Mirror of the `ScrapedData` interface of both scraper functions.
JS `image_url?: string` that may be `undefined` is `Option String`;
`is_out_of_stock` is always set by `scrapeProduct`, so it is `Bool`. -/
structure ScrapedData where
  title : String
  mrp : Nat
  sale_price : Nat
  discount : String
  condition : String
  storage : String
  ram : String
  color : String
  image_url : Option String
  is_out_of_stock : Bool
deriving Repr, DecidableEq

/-- Outcome of the regex stages of `scrapeProduct` on one markup input
(update-prices/index.ts lines 509-753; identical in the track-product
function). Fields:
* `isOutOfStock`: `outOfStockPattern.test(html)` (line 510).
* `mrpPrimary`: capture of the specific struck-through MRP pattern
  (line 525), `none` when it does not match.
* `mrpFallbacks`: for each of the four fallback MRP patterns
  (lines 533-538) the capture of its first match, in pattern order.
* `salePrimary`, `saleFallbacks`: likewise for the sale-price patterns
  (lines 555, 563-568).
* `discountRaw`: the discount string after the discount pattern cascade
  (lines 586-608), i.e. the primary or first fallback capture formatted
  as a percent string, or the default string of zero percent when no
  pattern matched. No claim depends on its internals, so the cascade is
  summarised at field level; the computed-discount branch (lines
  611-614) uses the extracted prices and is embedded below.
* `title`, `condition`, `storage`, `ram`, `color`, `image_url`: the
  values of those variables after their cascades and cleanup (lines
  513-521, 617-745); no claim depends on their internals, so they are
  summarised at field level. An unresolved string field is `""`, as in
  the source. -/
structure MatchResults where
  isOutOfStock : Bool
  mrpPrimary : Option String
  mrpFallbacks : List (Option String)
  salePrimary : Option String
  saleFallbacks : List (Option String)
  discountRaw : String
  title : String
  condition : String
  storage : String
  ram : String
  color : String
  image_url : String
deriving Repr, DecidableEq

/-- JS `parseInt(capture.replace(/,/g, ''))` for a capture of
`[0-9,]+`: strip commas, read the decimal digits. The source treats the
degenerate capture that leaves no digits as `NaN`, which is falsy and
fails every `price > 0` check exactly as `0` does, so it is modelled
as `0`. -/
def parsePrice (s : String) : Nat :=
  (s.toList.filter (fun c => c ≠ ',')).foldl (fun n c => n * 10 + (c.toNat - 48)) 0

/-- The fallback-pattern loops (lines 540-549 and 570-579): for each
pattern in order take its first match, parse it, and accept the first
value strictly between 0 and 2,000,000; a matching pattern whose value
is out of range does not stop the scan. -/
def firstFallbackPrice : List (Option String) → Nat
  | [] => 0
  | none :: rest => firstFallbackPrice rest
  | some c :: rest =>
    let p := parsePrice c
    if 0 < p ∧ p < 2000000 then p else firstFallbackPrice rest

/-- MRP extraction (lines 524-550): the primary capture is parsed with
no range check; the fallbacks run only when the primary left 0. -/
def extractMrp (m : MatchResults) : Nat :=
  let mrp := match m.mrpPrimary with
    | some c => parsePrice c
    | none => 0
  if mrp = 0 then firstFallbackPrice m.mrpFallbacks else mrp

/-- Sale-price cascade (lines 555-579), before the out-of-stock gate. -/
def extractSale (m : MatchResults) : Nat :=
  let sp := match m.salePrimary with
    | some c => parsePrice c
    | none => 0
  if sp = 0 then firstFallbackPrice m.saleFallbacks else sp

/-- Sale price after the out-of-stock gate (lines 553-554): the whole
sale-price cascade is skipped when the item is out of stock, leaving
the initial 0. -/
def saleBeforeBackfill (m : MatchResults) : Nat :=
  if m.isOutOfStock then 0 else extractSale m

/-- JS `Math.round(((mrp - sale) / mrp) * 100)` for `0 < sale < mrp`,
computed exactly over the rationals: `round x = floor (x + 1/2)`. -/
def computedDiscountPercent (mrp sale : Nat) : Nat :=
  ((mrp - sale) * 200 + mrp) / (2 * mrp)

/-- Discount assembly (lines 584-615): skipped entirely (left at the
zero-percent default) when out of stock; otherwise the pattern-cascade
result, and when that is still the default and both prices are known
with `mrp > sale_price`, the computed percentage. -/
def assembleDiscount (m : MatchResults) (mrp sale : Nat) : String :=
  if m.isOutOfStock then "0%"
  else if m.discountRaw ≠ "0%" then m.discountRaw
  else if 0 < mrp ∧ 0 < sale ∧ sale < mrp then
    s!"{computedDiscountPercent mrp sale}%"
  else "0%"

/-- Out-of-stock price backfill (lines 756-765), applied only when the
out-of-stock marker matched: both prices unresolved gives the fixed
pair (50000, 45000); a missing sale price is taken from the MRP (the
`mrp || 45000` alternative is kept although `mrp` is nonzero in that
branch); a missing MRP is the sale price plus 5000. -/
def backfillPrices (isOutOfStock : Bool) (mrp sale : Nat) : Nat × Nat :=
  if isOutOfStock then
    if mrp = 0 ∧ sale = 0 then (50000, 45000)
    else if sale = 0 then (mrp, if mrp = 0 then 45000 else mrp)
    else if mrp = 0 then (sale + 5000, sale)
    else (mrp, sale)
  else (mrp, sale)

/-- RAM and storage combination plus default (lines 748-753, 778):
`ram / storage` when both are present, `ram` alone when only RAM is
present, and the default capacity string when everything is empty. -/
def finalStorage (ram storage : String) : String :=
  let fs := if ram ≠ "" ∧ storage ≠ "" then ram ++ " / " ++ storage
    else if ram ≠ "" then ram
    else storage
  if fs = "" then "128GB" else fs

/-- Core of `scrapeProduct` from the regex captures onward (lines
509-783 of update-prices/index.ts; lines 209-486 of the track-product
function are textually identical): price cascades, out-of-stock gate
and backfill, the no-price-data failure, and the returned record with
its `||` defaults. -/
def scrapeCore (m : MatchResults) : Except String ScrapedData :=
  let mrp0 := extractMrp m
  let sale0 := saleBeforeBackfill m
  let discount := assembleDiscount m mrp0 sale0
  let pair := backfillPrices m.isOutOfStock mrp0 sale0
  let mrp := pair.1
  let sale := pair.2
  if mrp = 0 ∧ sale = 0 then
    Except.error "Could not extract price information from the page"
  else
    Except.ok {
      title := if m.title = "" then "Cashify Product" else m.title
      mrp := if mrp ≠ 0 then mrp else if sale ≠ 0 then sale else 50000
      sale_price := if sale ≠ 0 then sale else if mrp ≠ 0 then mrp else 45000
      discount := discount
      condition := m.condition
      storage := finalStorage m.ram m.storage
      ram := m.ram
      color := m.color
      image_url := if m.image_url = "" then none else some m.image_url
      is_out_of_stock := m.isOutOfStock }

/-- Substring test over character lists, the embedding of JS
`String.prototype.includes`. -/
def containsSub (hay needle : List Char) : Bool :=
  match hay with
  | [] => needle.isEmpty
  | c :: rest => needle.isPrefixOf (c :: rest) || containsSub rest needle

/-- The characters after the first occurrence of `needle`, when it
occurs. -/
def afterSub (hay needle : List Char) : Option (List Char) :=
  match hay with
  | [] => none
  | c :: rest =>
    if needle.isPrefixOf (c :: rest) then some ((c :: rest).drop needle.length)
    else afterSub rest needle

/-- The part of a character list after its last slash (the whole list
when there is none): JS `url.split('/').pop()`. -/
def lastComponent (cs : List Char) : List Char :=
  (cs.reverse.takeWhile (fun c => c ≠ '/')).reverse

/-- Mirror of the track-product catch-all fallback (lines 488-502 of
that function): when anything in `scrapeProduct` throws — HTTP failure
or the no-price-data error — the catch returns synthetic data derived
from the URL instead of rethrowing. The title is the last
slash-separated URL component with dashes replaced by spaces and its
first character capitalised, defaulting to `Product` when empty. -/
def urlFallbackData (url : String) : ScrapedData :=
  let last := lastComponent url.toList
  let t := last.map (fun c => if c = '-' then ' ' else c)
  let urlTitle := if t = [] then "Product".toList else t
  let capitalised := match urlTitle with
    | [] => []
    | c :: rest => c.toUpper :: rest
  { title := "Cashify " ++ String.mk capitalised
    mrp := 50000
    sale_price := 45000
    discount := "10%"
    condition := "Good"
    storage := "128GB"
    ram := ""
    color := ""
    image_url := none
    is_out_of_stock := false }

/-- The track-product `scrapeProduct` (lines 189-503 of that function):
the fetch (whose HTTP failure is the `error` side of the argument) and
the extraction core run inside a try whose catch returns the
URL-derived fallback data, so this version never fails. -/
def scrapeProductTrack (url : String) (fetch : Except String MatchResults) : ScrapedData :=
  match fetch >>= scrapeCore with
  | Except.ok d => d
  | Except.error _ => urlFallbackData url

/-- One entry of a product's `price_history` JSON array:
`{ price, checked_at }`. Timestamps are abstract ticks. -/
structure PriceEntry where
  price : Nat
  checked_at : Nat
deriving Repr, DecidableEq

/-- A row of the `products` table, with the columns the embedded code
reads or writes. `updated_at` is set by the sweep update alongside
`last_checked`. -/
structure Product where
  id : Nat
  user_id : Nat
  url : String
  title : String
  mrp : Nat
  sale_price : Nat
  discount : String
  condition : String
  storage : String
  ram : String
  color : String
  image_url : Option String
  is_out_of_stock : Bool
  price_history : List PriceEntry
  last_checked : Nat
  updated_at : Nat
deriving Repr, DecidableEq

/-- A row of the `price_alerts` table. -/
structure AlertRow where
  id : Nat
  product_id : Nat
  user_id : Nat
  target_price : Nat
  is_active : Bool
  updated_at : Nat
deriving Repr, DecidableEq

/-- The price of the last `price_history` entry, 0 for an empty
history (update-prices/index.ts lines 68-70). -/
def lastPrice (h : List PriceEntry) : Nat :=
  match h.getLast? with
  | some e => e.price
  | none => 0

/-- Result of reconciling one product against fresh scraped data: the
updated row and the two change flags the sweep computes. -/
structure ReconcileResult where
  newProduct : Product
  priceChanged : Bool
  stockStatusChanged : Bool
deriving Repr, DecidableEq

/-- Reconciliation of one product (update-prices/index.ts lines
66-112): append a history entry exactly when the product is in stock
and the sale price differs from the last recorded price; compare the
stored and fresh stock flags; build the row written by the `update`
call, which rewrites every snapshot field and sets `last_checked` and
`updated_at` to now. -/
def reconcile (p : Product) (d : ScrapedData) (now : Nat) : ReconcileResult :=
  let lp := lastPrice p.price_history
  let priceChanged := d.is_out_of_stock = false ∧ lp ≠ d.sale_price
  let newHistory := if d.is_out_of_stock = false ∧ lp ≠ d.sale_price
    then p.price_history ++ [⟨d.sale_price, now⟩]
    else p.price_history
  { newProduct := { p with
      title := d.title
      mrp := d.mrp
      sale_price := d.sale_price
      discount := d.discount
      condition := d.condition
      storage := d.storage
      ram := d.ram
      color := d.color
      image_url := d.image_url
      is_out_of_stock := d.is_out_of_stock
      price_history := newHistory
      last_checked := now
      updated_at := now }
    priceChanged := decide priceChanged
    stockStatusChanged := p.is_out_of_stock != d.is_out_of_stock }

/-- Events observable from one reconciliation, named after the spec
vocabulary: `priceChanged` corresponds to the appended history entry
and log line (lines 76-86), `stockRestored` to the back-in-stock
branch (line 127), `stockDepleted` to the depleted side of the stock
log (lines 89-92). -/
inductive ReconcileEvent where
  | priceChanged (oldPrice newPrice : Nat)
  | stockRestored
  | stockDepleted
deriving Repr, DecidableEq

/-- The events produced by one reconciliation. -/
def reconcileEvents (p : Product) (d : ScrapedData) (now : Nat) : List ReconcileEvent :=
  let r := reconcile p d now
  (if r.priceChanged then [ReconcileEvent.priceChanged (lastPrice p.price_history) d.sale_price] else [])
    ++ (if r.stockStatusChanged then
          (if d.is_out_of_stock then [ReconcileEvent.stockDepleted] else [ReconcileEvent.stockRestored])
        else [])

/-- A price-target-reached notification intent, the data
`checkPriceAlerts` hands to the email sender for one triggered alert
(lines 325-333). -/
structure AlertIntent where
  alert_id : Nat
  user_id : Nat
  product_id : Nat
  new_price : Nat
deriving Repr, DecidableEq

/-- The filter of the alert query (lines 305-310): same product,
active, and `target_price >= newPrice`. -/
def alertTriggers (productId newPrice : Nat) (a : AlertRow) : Bool :=
  a.product_id = productId ∧ a.is_active = true ∧ newPrice ≤ a.target_price

/-- The alert deactivation write of `checkPriceAlerts` (lines
336-339): `update({ is_active: false, updated_at: now })`. -/
def deactivate (now : Nat) (a : AlertRow) : AlertRow :=
  { a with is_active := false, updated_at := now }

/-- The `checkPriceAlerts` function (lines 302-348): query the active
alerts of the product whose target meets the new price, emit one
notification intent per such alert, and deactivate each by id
(`update(...).eq('id', alert.id)`). Delivery is external; the
embedding models the decision layer, where each triggered alert's
email lookup succeeds. -/
def checkPriceAlerts (alerts : List AlertRow) (productId newPrice now : Nat) :
    List AlertIntent × List AlertRow :=
  let triggered := alerts.filter (alertTriggers productId newPrice)
  (triggered.map (fun a => ⟨a.id, a.user_id, productId, newPrice⟩),
   triggered.foldl
     (fun acc t => acc.map (fun a => if a.id = t.id then deactivate now a else a))
     alerts)

/-- The `handleToggleAlert` UI handler (part_002 lines 130-150): the
row with the given id gets `is_active := !isActive`, where `isActive`
is the active flag the UI currently shows for that alert. -/
def handleToggleAlert (alerts : List AlertRow) (alertId : Nat) (isActive : Bool) (now : Nat) :
    List AlertRow :=
  alerts.map (fun a =>
    if a.id = alertId then { a with is_active := !isActive, updated_at := now } else a)

/-- The `handleDeleteAlert` UI handler (part_002 lines 152-167):
delete the row with the given id. -/
def handleDeleteAlert (alerts : List AlertRow) (alertId : Nat) : List AlertRow :=
  alerts.filter (fun a => a.id ≠ alertId)

/-- Mutable state threaded through the sweep loop: the products table,
the alerts table, the success counter, the error list, and the
notification intents handed to the delivery collaborator. -/
structure SweepState where
  db : List Product
  alerts : List AlertRow
  updatedCount : Nat
  errors : List String
  intents : List AlertIntent
deriving Repr, DecidableEq

/-- One iteration of the sweep loop (update-prices/index.ts lines
61-140) for product `p`. `scrape` is the composite fetch-and-extract
(`scrapeProduct`), whose `error` side is a thrown fetch or extraction
failure; `updateOk` says whether the database update is accepted. A
scrape throw is caught and recorded as one error string and nothing is
written; an update rejection records one error string; a success
writes the reconciled row by id, increments the counter, and runs the
alert check exactly when the product is in stock, the price changed,
and it dropped below the last recorded price. -/
def processProduct (scrape : Product → Except String ScrapedData) (updateOk : Product → Bool)
    (now : Nat) (st : SweepState) (p : Product) : SweepState :=
  match scrape p with
  | Except.error msg =>
    { st with errors := st.errors ++ [s!"Failed to scrape product {p.id}: {msg}"] }
  | Except.ok d =>
    let r := reconcile p d now
    if updateOk p then
      let db := st.db.map (fun q => if q.id = p.id then r.newProduct else q)
      if d.is_out_of_stock = false ∧ r.priceChanged = true ∧ d.sale_price < lastPrice p.price_history then
        let res := checkPriceAlerts st.alerts p.id d.sale_price now
        { st with
            db := db
            alerts := res.2
            updatedCount := st.updatedCount + 1
            intents := st.intents ++ res.1 }
      else
        { st with db := db, updatedCount := st.updatedCount + 1 }
    else
      { st with errors := st.errors ++ [s!"Failed to update product {p.id}"] }

/-- The whole sweep over the queried product list (lines 57-156):
fold the per-product step over the list, starting from the stored
tables with a zero counter and empty error list. The response reports
`updated = updatedCount` and `total = products.length`. -/
def sweep (dbProducts : List Product) (dbAlerts : List AlertRow)
    (products : List Product) (scrape : Product → Except String ScrapedData)
    (updateOk : Product → Bool) (now : Nat) : SweepState :=
  products.foldl (processProduct scrape updateOk now)
    { db := dbProducts, alerts := dbAlerts, updatedCount := 0, errors := [], intents := [] }

/-- Responses of the track-product handler, by status and message
(part_001 lines 43-187). The two 401 branches (missing header, invalid
token) are collapsed into `unauthorized`; `success` is the 200
response. -/
inductive TrackResponse where
  | badRequest (msg : String)
  | unauthorized
  | serverError (msg : String)
  | success
deriving Repr, DecidableEq

/-- Outcome of one track-product request: the response, the resulting
products table, and whether the page fetch (`scrapeProduct`) ran. -/
structure TrackResult where
  resp : TrackResponse
  db : List Product
  fetchPerformed : Bool
deriving Repr, DecidableEq

/-- JS `url.includes('cashify.in')` (part_001 line 66). -/
def containsCashify (url : String) : Bool :=
  containsSub url.toList "cashify.in".toList

/-- The row inserted by the track-product handler (part_001 lines
129-148): the scraped fields with `|| ''` defaults for RAM and color,
a one-entry price history at the scraped sale price, and
`last_checked` now. -/
def insertedRow (newId userId : Nat) (url : String) (d : ScrapedData) (now : Nat) : Product :=
  { id := newId
    user_id := userId
    url := url
    title := d.title
    mrp := d.mrp
    sale_price := d.sale_price
    discount := d.discount
    condition := d.condition
    storage := d.storage
    ram := d.ram
    color := d.color
    image_url := d.image_url
    is_out_of_stock := d.is_out_of_stock
    price_history := [⟨d.sale_price, now⟩]
    last_checked := now
    updated_at := now }

/-- The track-product request handler (part_001 lines 43-187):
reject an empty URL, then a URL not containing `cashify.in`, then an
unauthenticated request; reject a URL already tracked by the same
user before any fetch; otherwise scrape (never fails, by the fallback
catch) and insert, answering 500 without a record when the insert is
rejected and 200 with the new record otherwise. -/
def trackHandler (db : List Product) (userId : Option Nat) (url : String)
    (fetch : Except String MatchResults) (insertOk : Bool) (newId now : Nat) : TrackResult :=
  if url = "" then ⟨TrackResponse.badRequest "URL is required", db, false⟩
  else if containsCashify url = false then
    ⟨TrackResponse.badRequest "Only Cashify URLs are supported", db, false⟩
  else
    match userId with
    | none => ⟨TrackResponse.unauthorized, db, false⟩
    | some u =>
      if db.any (fun p => p.user_id = u ∧ p.url = url) then
        ⟨TrackResponse.badRequest "Product is already being tracked", db, false⟩
      else
        let d := scrapeProductTrack url fetch
        if insertOk then
          ⟨TrackResponse.success, db ++ [insertedRow newId u url d now], true⟩
        else
          ⟨TrackResponse.serverError "Failed to save product data", db, true⟩

/-- JS `new URL(url).hostname`, for the absolute http(s) URLs this
app handles: `none` when the scheme separator is absent (the URL
constructor throws, which `validateCashifyUrl` catches); otherwise
the text between the scheme separator and the next slash. Ports and
userinfo are not modelled; no claim depends on them. -/
def urlHostname (url : String) : Option String :=
  match afterSub url.toList "://".toList with
  | none => none
  | some rest => some (String.mk (rest.takeWhile (fun c => c ≠ '/')))

/-- The `validateCashifyUrl` check of the intake form
(PriceHistoryChart.tsx lines 335-342): parse the URL — a parse
failure yields false — and require host `www.cashify.in` together
with the `buy-refurbished` product-path marker in the URL. -/
def validateCashifyUrl (url : String) : Bool :=
  match urlHostname url with
  | none => false
  | some h => h = "www.cashify.in" && containsSub url.toList "buy-refurbished".toList

/-- Client-side outcomes of submitting the intake form: the three
local rejections, or the request reaching the track-product
function with its result. -/
inductive IntakeOutcome where
  | emptyUrl
  | invalidUrl
  | noSession
  | submitted (result : TrackResult)
deriving Repr, DecidableEq

/-- The intake form submit handler (PriceHistoryChart.tsx lines
344-390) composed with the track-product function: a blank URL
(empty after `url.trim()`, modelled as all-whitespace), a URL failing
`validateCashifyUrl`, and a missing session are rejected in the
client without any request; otherwise the URL is posted to the
track-product handler. -/
def productFormSubmit (db : List Product) (userId : Option Nat) (hasSession : Bool)
    (url : String) (fetch : Except String MatchResults) (insertOk : Bool) (newId now : Nat) :
    IntakeOutcome :=
  if url.toList.all (fun c => c = ' ' ∨ c = '\t' ∨ c = '\n' ∨ c = '\r') then
    IntakeOutcome.emptyUrl
  else if validateCashifyUrl url = false then IntakeOutcome.invalidUrl
  else if hasSession = false then IntakeOutcome.noSession
  else IntakeOutcome.submitted (trackHandler db userId url fetch insertOk newId now)

/-- Success of one sweep iteration: the scrape returned data and the
database accepted the update. -/
def scrapeStepOk (scrape : Product → Except String ScrapedData) (updateOk : Product → Bool)
    (p : Product) : Bool :=
  (match scrape p with
   | Except.ok _ => true
   | Except.error _ => false) && updateOk p

/-- The error string one failing sweep iteration records for `p`. -/
def sweepErrMsg (scrape : Product → Except String ScrapedData) (p : Product) : String :=
  match scrape p with
  | Except.error m => s!"Failed to scrape product {p.id}: {m}"
  | Except.ok _ => s!"Failed to update product {p.id}"

/-- The pointwise effect of one sweep iteration for `p` on a stored
row: a successful iteration rewrites the rows carrying the id of `p`
with the reconciled snapshot and leaves every other row alone; a
failing iteration touches nothing. -/
def stepG (scrape : Product → Except String ScrapedData) (updateOk : Product → Bool)
    (now : Nat) (p : Product) (r : Product) : Product :=
  match scrape p with
  | Except.ok d =>
    if updateOk p then (if r.id = p.id then (reconcile p d now).newProduct else r) else r
  | Except.error _ => r

/-- Markup whose price cascades all fail while the in-stock marker is
absent: the minimal extraction-failure input. -/
def noPriceMarkup : MatchResults :=
  { isOutOfStock := false
    mrpPrimary := none
    mrpFallbacks := [none, none, none, none]
    salePrimary := none
    saleFallbacks := [none, none, none, none]
    discountRaw := "0%"
    title := "Apple iPhone 12"
    condition := "Good"
    storage := ""
    ram := ""
    color := ""
    image_url := "" }

/-- The out-of-stock variant of `noPriceMarkup`: marker present, no
price text at all. -/
def oosNoPriceMarkup : MatchResults :=
  { noPriceMarkup with isOutOfStock := true }

/-- The record the extractor produces for `oosNoPriceMarkup`. -/
def oosNoPriceData : ScrapedData :=
  { title := "Apple iPhone 12"
    mrp := 50000
    sale_price := 45000
    discount := "0%"
    condition := "Good"
    storage := "128GB"
    ram := ""
    color := ""
    image_url := none
    is_out_of_stock := true }

/-- Scraped data for the sweep examples: an in-stock page at sale
price 40000. -/
def demoScraped : ScrapedData :=
  { title := "Phone"
    mrp := 50000
    sale_price := 40000
    discount := "20%"
    condition := "Good"
    storage := "128GB"
    ram := ""
    color := ""
    image_url := none
    is_out_of_stock := false }

/-- A stored product row with the given id, last recorded price
45000, last checked at tick 0. -/
def demoProduct (i : Nat) : Product :=
  { id := i
    user_id := 1
    url := "https://www.cashify.in/buy-refurbished-mobile-phones/apple-iphone-12"
    title := "Phone"
    mrp := 50000
    sale_price := 45000
    discount := "10%"
    condition := "Good"
    storage := "128GB"
    ram := ""
    color := ""
    image_url := none
    is_out_of_stock := false
    price_history := [⟨45000, 0⟩]
    last_checked := 0
    updated_at := 0 }

/-- A scrape oracle that throws on product 2 and succeeds elsewhere:
the three-item sweep example of the spec. -/
def demoScrape : Product → Except String ScrapedData :=
  fun p => if p.id = 2 then Except.error "network error" else Except.ok demoScraped

/-- An alert row on product 5 for user 9. -/
def demoAlert (i target : Nat) (act : Bool) : AlertRow :=
  { id := i, product_id := 5, user_id := 9, target_price := target, is_active := act,
    updated_at := 0 }

/-- The three-item product table of the sweep example. -/
def demoProducts : List Product :=
  [demoProduct 1, demoProduct 2, demoProduct 3]

/-! ## Helper lemmas -/

theorem lastPrice_concat (h : List PriceEntry) (e : PriceEntry) :
    lastPrice (h ++ [e]) = e.price := by
  simp [lastPrice, List.getLast?_concat]

/-! ## Claim theorems -/

/-- C2: for every markup input on which no extraction rule yields a
list price or a sale price — every price cascade produces nothing in
range and the out-of-stock backfill does not apply because the marker
is absent (when the marker is present the backfill always yields
prices) — the Extractor fails with the could-not-extract error rather
than returning a result. -/
theorem C2_extractor_fails (m : MatchResults)
    (hstock : m.isOutOfStock = false)
    (hmrp : extractMrp m = 0) (hsale : extractSale m = 0) :
    scrapeCore m = Except.error "Could not extract price information from the page" := by
  simp [scrapeCore, saleBeforeBackfill, backfillPrices, hstock, hmrp, hsale]

/-- Witness for C2 at the concrete in-stock markup with no price
text. -/
theorem C2_witness :
    scrapeCore noPriceMarkup
      = Except.error "Could not extract price information from the page" :=
  C2_extractor_fails noPriceMarkup rfl rfl rfl

/-- C7: reconciling twice in a row with an identical extraction result
appends no history entry and emits no event on the second
reconciliation; and in general one reconciliation appends an entry
exactly when the item is in stock and the fresh sale price differs
from the last recorded price, leaving the history untouched
otherwise. -/
theorem C7_reconcile_idempotent (p : Product) (d : ScrapedData) (t1 t2 : Nat) :
    ((reconcile (reconcile p d t1).newProduct d t2).newProduct.price_history
        = (reconcile p d t1).newProduct.price_history) ∧
    reconcileEvents (reconcile p d t1).newProduct d t2 = [] ∧
    ((reconcile p d t2).newProduct.price_history
        = if d.is_out_of_stock = false ∧ lastPrice p.price_history ≠ d.sale_price
          then p.price_history ++ [⟨d.sale_price, t2⟩]
          else p.price_history) := by
  have hlast : d.is_out_of_stock = false →
      lastPrice (reconcile p d t1).newProduct.price_history = d.sale_price := by
    intro h
    show lastPrice (if d.is_out_of_stock = false ∧ lastPrice p.price_history ≠ d.sale_price
        then p.price_history ++ [⟨d.sale_price, t1⟩] else p.price_history) = d.sale_price
    by_cases hlp : lastPrice p.price_history = d.sale_price
    · rw [if_neg]
      · exact hlp
      · rintro ⟨_, hne⟩
        exact hne hlp
    · rw [if_pos ⟨h, hlp⟩, lastPrice_concat]
  have hcond : ¬ (d.is_out_of_stock = false
      ∧ lastPrice (reconcile p d t1).newProduct.price_history ≠ d.sale_price) := by
    rintro ⟨h1, h2⟩
    exact h2 (hlast h1)
  refine ⟨?_, ?_, rfl⟩
  · show (if d.is_out_of_stock = false
          ∧ lastPrice (reconcile p d t1).newProduct.price_history ≠ d.sale_price
        then (reconcile p d t1).newProduct.price_history ++ [⟨d.sale_price, t2⟩]
        else (reconcile p d t1).newProduct.price_history)
      = (reconcile p d t1).newProduct.price_history
    rw [if_neg hcond]
  · have hpc : (reconcile (reconcile p d t1).newProduct d t2).priceChanged = false := by
      simp only [reconcile, decide_eq_false_iff_not]
      exact hcond
    have hsc : (reconcile (reconcile p d t1).newProduct d t2).stockStatusChanged = false := by
      show ((reconcile p d t1).newProduct.is_out_of_stock != d.is_out_of_stock) = false
      show (d.is_out_of_stock != d.is_out_of_stock) = false
      simp
    simp [reconcileEvents, hpc, hsc]

/-- C8: for every markup input containing the out-of-stock marker the
Extractor succeeds, never failing on prices: with no extracted price
it produces the fixed pair (list 50000, sale 45000); with an extracted
MRP the sale price is set from it. The remaining backfill branches of
the source are stated over `backfillPrices` itself: a present sale
price with no MRP gets list = sale + 5000, and a present MRP with no
sale price reuses the MRP (under the out-of-stock gate the extracted
sale price is always 0, so the sale-present branch cannot fire in
`scrapeCore`). -/
theorem C8_oos_backfill (m : MatchResults) (h : m.isOutOfStock = true) :
    (∃ d, scrapeCore m = Except.ok d ∧
        (extractMrp m = 0 → d.mrp = 50000 ∧ d.sale_price = 45000) ∧
        (extractMrp m ≠ 0 → d.mrp = extractMrp m ∧ d.sale_price = extractMrp m)) ∧
    saleBeforeBackfill m = 0 ∧
    (∀ mrp sale : Nat, mrp = 0 → sale ≠ 0 →
        backfillPrices true mrp sale = (sale + 5000, sale)) ∧
    (∀ mrp sale : Nat, mrp ≠ 0 → sale = 0 →
        backfillPrices true mrp sale = (mrp, mrp)) := by
  refine ⟨?_, by simp [saleBeforeBackfill, h], ?_, ?_⟩
  · by_cases hm : extractMrp m = 0
    · have hcore : scrapeCore m = Except.ok
          { title := if m.title = "" then "Cashify Product" else m.title
            mrp := 50000
            sale_price := 45000
            discount := "0%"
            condition := m.condition
            storage := finalStorage m.ram m.storage
            ram := m.ram
            color := m.color
            image_url := if m.image_url = "" then none else some m.image_url
            is_out_of_stock := m.isOutOfStock } := by
        simp [scrapeCore, saleBeforeBackfill, assembleDiscount, backfillPrices, h, hm]
      exact ⟨_, hcore, fun _ => ⟨rfl, rfl⟩, fun hc => absurd hm hc⟩
    · have hcore : scrapeCore m = Except.ok
          { title := if m.title = "" then "Cashify Product" else m.title
            mrp := extractMrp m
            sale_price := extractMrp m
            discount := "0%"
            condition := m.condition
            storage := finalStorage m.ram m.storage
            ram := m.ram
            color := m.color
            image_url := if m.image_url = "" then none else some m.image_url
            is_out_of_stock := m.isOutOfStock } := by
        simp [scrapeCore, saleBeforeBackfill, assembleDiscount, backfillPrices, h, hm]
      exact ⟨_, hcore, fun hc => absurd hc hm, fun _ => ⟨rfl, rfl⟩⟩
  · intro mrp sale h0 hs
    simp [backfillPrices, h0, hs]
  · intro mrp sale hm hs
    simp [backfillPrices, hm, hs]

/-- Witness for C8 at the concrete out-of-stock markup with no price
text. -/
theorem C8_witness :
    (∃ d, scrapeCore oosNoPriceMarkup = Except.ok d ∧
        (extractMrp oosNoPriceMarkup = 0 → d.mrp = 50000 ∧ d.sale_price = 45000) ∧
        (extractMrp oosNoPriceMarkup ≠ 0 →
          d.mrp = extractMrp oosNoPriceMarkup ∧ d.sale_price = extractMrp oosNoPriceMarkup)) ∧
    saleBeforeBackfill oosNoPriceMarkup = 0 ∧
    (∀ mrp sale : Nat, mrp = 0 → sale ≠ 0 →
        backfillPrices true mrp sale = (sale + 5000, sale)) ∧
    (∀ mrp sale : Nat, mrp ≠ 0 → sale = 0 →
        backfillPrices true mrp sale = (mrp, mrp)) :=
  C8_oos_backfill oosNoPriceMarkup rfl

/-- C10: every extraction result the Extractor returns — from either
scraper function, in stock or out of stock, including the
track-product fallback path — carries a strictly positive list price
and a strictly positive sale price. -/
theorem C10_positive_prices :
    (∀ (m : MatchResults) (d : ScrapedData),
        scrapeCore m = Except.ok d → 0 < d.mrp ∧ 0 < d.sale_price) ∧
    (∀ (url : String) (fetch : Except String MatchResults),
        0 < (scrapeProductTrack url fetch).mrp
          ∧ 0 < (scrapeProductTrack url fetch).sale_price) := by
  have hcore : ∀ (m : MatchResults) (d : ScrapedData),
      scrapeCore m = Except.ok d → 0 < d.mrp ∧ 0 < d.sale_price := by
    intro m d hd
    simp only [scrapeCore] at hd
    split at hd
    · exact absurd hd (by simp)
    · rename_i hnz
      injection hd with hd
      subst hd
      constructor
      · simp only []
        split
        · rename_i hm
          exact Nat.pos_of_ne_zero hm
        · split
          · rename_i hs
            exact Nat.pos_of_ne_zero hs
          · exact Nat.succ_pos _
      · simp only []
        split
        · rename_i hs
          exact Nat.pos_of_ne_zero hs
        · split
          · rename_i hm
            exact Nat.pos_of_ne_zero hm
          · exact Nat.succ_pos _
  refine ⟨hcore, ?_⟩
  intro url fetch
  unfold scrapeProductTrack
  rcases fetch with e | m
  · exact ⟨Nat.succ_pos _, Nat.succ_pos _⟩
  · show 0 < (match Except.ok m >>= scrapeCore with
        | Except.ok d => d
        | Except.error _ => urlFallbackData url).mrp ∧ _
    have hb : (Except.ok m >>= scrapeCore : Except String ScrapedData) = scrapeCore m := rfl
    rw [hb]
    rcases hc : scrapeCore m with e | d
    · exact ⟨Nat.succ_pos _, Nat.succ_pos _⟩
    · exact hcore m d hc

/-- Witness for C10 at the concrete out-of-stock markup whose
extraction succeeds. -/
theorem C10_witness : 0 < oosNoPriceData.mrp ∧ 0 < oosNoPriceData.sale_price :=
  C10_positive_prices.1 oosNoPriceMarkup oosNoPriceData rfl

/-- C1 counterexample: a first-time tracking request whose page
scrape ends in an extraction failure (no usable price data) does not
surface the error and does insert a record. At a concrete request —
fresh table, valid user, valid URL, markup with no price data, whose
extraction provably fails — the handler answers success and the table
gains one row, so the claim is false on the code: the track-product
catch converts the failure into fallback data. -/
theorem C1_counterexample :
    scrapeCore noPriceMarkup
      = Except.error "Could not extract price information from the page" ∧
    (trackHandler [] (some 1)
        "https://www.cashify.in/buy-refurbished-mobile-phones/apple-iphone-12"
        (Except.ok noPriceMarkup) true 7 1000).resp = TrackResponse.success ∧
    (trackHandler [] (some 1)
        "https://www.cashify.in/buy-refurbished-mobile-phones/apple-iphone-12"
        (Except.ok noPriceMarkup) true 7 1000).db.length = 1 :=
  ⟨rfl, rfl, rfl⟩

/-- C1 amended: a first-time tracking request whose scrape fails —
fetch error or extraction failure — does not surface the error: the
catch in the track-product scraper substitutes URL-derived fallback
data (list 50000, sale 45000, discount 10%, condition Good, storage
128GB) and the handler inserts a product record built from it,
answering success. -/
theorem C1_amended (db : List Product) (u : Nat) (url : String)
    (fetch : Except String MatchResults) (newId now : Nat) (e : String)
    (hurl : url ≠ "") (hcash : containsCashify url = true)
    (hdup : db.any (fun p => p.user_id = u ∧ p.url = url) = false)
    (hfail : fetch >>= scrapeCore = Except.error e) :
    trackHandler db (some u) url fetch true newId now =
      ⟨TrackResponse.success, db ++ [insertedRow newId u url (urlFallbackData url) now], true⟩ := by
  have hscr : scrapeProductTrack url fetch = urlFallbackData url := by
    unfold scrapeProductTrack
    rw [hfail]
  unfold trackHandler
  rw [if_neg hurl, hcash]
  rw [if_neg (show ¬ ((true : Bool) = false) by decide)]
  simp only [hdup, hscr]
  rfl

/-- Witness for C1 at the concrete failing request of the
counterexample. -/
theorem C1_witness :
    trackHandler [] (some 1)
        "https://www.cashify.in/buy-refurbished-mobile-phones/apple-iphone-12"
        (Except.ok noPriceMarkup) true 7 1000 =
      ⟨TrackResponse.success,
       [insertedRow 7 1 "https://www.cashify.in/buy-refurbished-mobile-phones/apple-iphone-12"
          (urlFallbackData "https://www.cashify.in/buy-refurbished-mobile-phones/apple-iphone-12")
          1000],
       true⟩ :=
  C1_amended [] 1 _ _ 7 1000 "Could not extract price information from the page"
    (by decide) (by decide) rfl rfl

/-- C6 counterexample: a failed reconciliation does not update
`last_checked`. At a concrete sweep iteration whose scrape throws, the
stored row is left exactly as it was — in particular its
`last_checked` stays 0 and is not set to the sweep time 1000 — so the
claim that `lastCheckedAt` is updated on every reconciliation
including failures is false on the code, which performs no write at
all in that case. -/
theorem C6_counterexample :
    (processProduct (fun _ => Except.error "network error") (fun _ => true) 1000
        { db := [demoProduct 1], alerts := [], updatedCount := 0, errors := [], intents := [] }
        (demoProduct 1)).db = [demoProduct 1]
      ∧ (demoProduct 1).last_checked ≠ 1000 :=
  ⟨rfl, by decide⟩

/-- C6 amended: a successful reconciliation rewrites the item's row —
every snapshot field — and sets `last_checked` (and `updated_at`) to
the sweep time; a reconciliation whose fetch or extraction fails
performs no write at all, leaving every stored field, including
`last_checked`, unchanged, so the item is retried on the next
sweep. -/
theorem C6_amended (scrape : Product → Except String ScrapedData) (updateOk : Product → Bool)
    (now : Nat) (st : SweepState) (p : Product) :
    ((processProduct scrape updateOk now st p).db =
      match scrape p with
      | Except.error _ => st.db
      | Except.ok d =>
        if updateOk p then
          st.db.map (fun q => if q.id = p.id then (reconcile p d now).newProduct else q)
        else st.db) ∧
    (∀ d, (reconcile p d now).newProduct.last_checked = now) := by
  constructor
  · rcases h : scrape p with e | d
    · simp [processProduct, h]
    · by_cases hu : updateOk p
      · simp only [processProduct, h, hu, if_pos]
        split <;> rfl
      · simp [processProduct, h, hu]
  · intro d
    rfl

/-- C9: a new tracking request submitted through the intake form is
accepted only if its URL belongs to the single supported source
domain (`new URL(url).hostname` equals `www.cashify.in`) and matches
the expected product-path shape (the URL carries the
`buy-refurbished` path marker): whenever the form forwards a request
at all, `validateCashifyUrl` held, so both conditions held. A URL
already tracked by the same owner is rejected by the track-product
handler before any page fetch is performed. -/
theorem C9_intake_validation (db : List Product) (userId : Option Nat) (hasSession : Bool)
    (url : String) (fetch : Except String MatchResults) (insertOk : Bool) (newId now : Nat) :
    (∀ r, productFormSubmit db userId hasSession url fetch insertOk newId now
          = IntakeOutcome.submitted r →
        urlHostname url = some "www.cashify.in" ∧
        containsSub url.toList "buy-refurbished".toList = true) ∧
    (∀ u, userId = some u → url ≠ "" → containsCashify url = true →
        db.any (fun p => p.user_id = u ∧ p.url = url) = true →
        trackHandler db userId url fetch insertOk newId now =
          ⟨TrackResponse.badRequest "Product is already being tracked", db, false⟩) := by
  constructor
  · intro r h
    unfold productFormSubmit at h
    split at h
    · cases h
    · split at h
      · cases h
      · rename_i hvnot
        have hv : validateCashifyUrl url = true := by
          cases hvv : validateCashifyUrl url
          · exact absurd hvv hvnot
          · rfl
        unfold validateCashifyUrl at hv
        rcases hh : urlHostname url with _ | hname
        · rw [hh] at hv
          cases hv
        · rw [hh] at hv
          rw [Bool.and_eq_true] at hv
          have hn : hname = "www.cashify.in" := by simpa using hv.1
          rw [hn]
          exact ⟨rfl, hv.2⟩
  · rintro u rfl hurl hc hdup
    unfold trackHandler
    rw [if_neg hurl, hc]
    rw [if_neg (show ¬ ((true : Bool) = false) by decide)]
    simp only [hdup]
    rfl

/-- Witness for C9: the validation clause applied at a concrete
submitted request, and the duplicate-rejection clause applied at a
concrete request that resubmits an already-tracked URL. -/
theorem C9_witness :
    (urlHostname "https://www.cashify.in/buy-refurbished-mobile-phones/apple-iphone-12"
        = some "www.cashify.in" ∧
      containsSub
        "https://www.cashify.in/buy-refurbished-mobile-phones/apple-iphone-12".toList
        "buy-refurbished".toList = true) ∧
    trackHandler [demoProduct 1] (some 1)
        "https://www.cashify.in/buy-refurbished-mobile-phones/apple-iphone-12"
        (Except.ok noPriceMarkup) true 7 1000 =
      ⟨TrackResponse.badRequest "Product is already being tracked", [demoProduct 1], false⟩ :=
  ⟨(C9_intake_validation [] (some 1) true
      "https://www.cashify.in/buy-refurbished-mobile-phones/apple-iphone-12"
      (Except.ok noPriceMarkup) true 7 1000).1
      (trackHandler [] (some 1)
        "https://www.cashify.in/buy-refurbished-mobile-phones/apple-iphone-12"
        (Except.ok noPriceMarkup) true 7 1000) (by decide),
   (C9_intake_validation [demoProduct 1] (some 1) true
      "https://www.cashify.in/buy-refurbished-mobile-phones/apple-iphone-12"
      (Except.ok noPriceMarkup) true 7 1000).2 1 rfl (by decide) (by decide) (by decide)⟩

theorem foldl_deactivate_map (now : Nat) (ts : List AlertRow) :
    ∀ l : List AlertRow,
      ts.foldl (fun acc t => acc.map (fun a => if a.id = t.id then deactivate now a else a)) l
        = l.map (fun a =>
            ts.foldl (fun x t => if x.id = t.id then deactivate now x else x) a) := by
  induction ts with
  | nil => intro l; simp
  | cons t rest ih =>
    intro l
    simp only [List.foldl_cons]
    rw [ih, List.map_map]
    rfl

theorem elem_foldl_deactivate (now : Nat) :
    ∀ (ts : List AlertRow) (a : AlertRow),
      ts.foldl (fun x t => if x.id = t.id then deactivate now x else x) a
        = if ts.any (fun t => a.id = t.id) then deactivate now a else a := by
  intro ts
  induction ts with
  | nil => intro a; simp
  | cons t rest ih =>
    intro a
    simp only [List.foldl_cons, List.any_cons]
    by_cases h : a.id = t.id
    · rw [if_pos h, ih (deactivate now a)]
      simp [deactivate, h]
    · rw [if_neg h, ih a]
      simp [h]

theorem checkPriceAlerts_fst (alerts : List AlertRow) (pid np now : Nat) :
    (checkPriceAlerts alerts pid np now).1
      = (alerts.filter (alertTriggers pid np)).map
          (fun a => ⟨a.id, a.user_id, pid, np⟩) := rfl

theorem checkPriceAlerts_snd (alerts : List AlertRow) (pid np now : Nat) :
    (checkPriceAlerts alerts pid np now).2
      = alerts.map (fun a =>
          if (alerts.filter (alertTriggers pid np)).any (fun t => a.id = t.id)
          then deactivate now a else a) := by
  show (alerts.filter (alertTriggers pid np)).foldl
      (fun acc t => acc.map (fun a => if a.id = t.id then deactivate now a else a)) alerts = _
  rw [foldl_deactivate_map]
  simp only [elem_foldl_deactivate]

theorem countP_id_eq_one (a : AlertRow) :
    ∀ l : List AlertRow, (l.map AlertRow.id).Nodup → a ∈ l →
      l.countP (fun t => t.id = a.id) = 1 := by
  intro l
  induction l with
  | nil => intro _ h; cases h
  | cons b rest ih =>
    intro hnd hmem
    have hnd2 : (rest.map AlertRow.id).Nodup := (List.nodup_cons.mp hnd).2
    have hbna : b.id ∉ rest.map AlertRow.id := (List.nodup_cons.mp hnd).1
    rw [List.countP_cons]
    rcases List.mem_cons.mp hmem with rfl | hmem2
    · have h0 : rest.countP (fun t => t.id = a.id) = 0 := by
        refine List.countP_eq_zero.mpr ?_
        intro t ht hteq
        exact hbna (List.mem_map.mpr ⟨t, ht, by simpa using hteq⟩)
      simp [h0]
    · have hne : ¬ (b.id = a.id) := by
        intro he
        exact hbna (he ▸ List.mem_map.mpr ⟨a, hmem2, rfl⟩)
      rw [ih hnd2 hmem2]
      simp [hne]

/-- C3: when a price drop to `newPrice` is processed for an item,
every active alert on it with `targetPrice ≥ newPrice` produces
exactly one price-target-reached notification intent and is
deactivated, and every active alert with `targetPrice < newPrice`
produces no intent and is left untouched. Alert ids are assumed
pairwise distinct, as for database primary keys. -/
theorem C3_alert_triggering (alerts : List AlertRow) (pid newPrice now : Nat) (a : AlertRow)
    (hnd : (alerts.map AlertRow.id).Nodup) (ha : a ∈ alerts) (hpid : a.product_id = pid)
    (hact : a.is_active = true) :
    (newPrice ≤ a.target_price →
        (checkPriceAlerts alerts pid newPrice now).1.countP (fun i => i.alert_id = a.id) = 1 ∧
        (∀ b ∈ (checkPriceAlerts alerts pid newPrice now).2, b.id = a.id →
            b.is_active = false)) ∧
    (a.target_price < newPrice →
        (checkPriceAlerts alerts pid newPrice now).1.countP (fun i => i.alert_id = a.id) = 0 ∧
        (∀ b ∈ (checkPriceAlerts alerts pid newPrice now).2, b.id = a.id → b = a)) := by
  have hinj := List.inj_on_of_nodup_map hnd
  have hndf : ((alerts.filter (alertTriggers pid newPrice)).map AlertRow.id).Nodup :=
    List.Nodup.sublist (List.Sublist.map AlertRow.id (List.filter_sublist alerts)) hnd
  constructor
  · intro hle
    have htrig : alertTriggers pid newPrice a = true := by
      simp [alertTriggers, hpid, hact, hle]
    have hmemf : a ∈ alerts.filter (alertTriggers pid newPrice) :=
      List.mem_filter.mpr ⟨ha, htrig⟩
    constructor
    · rw [checkPriceAlerts_fst, List.countP_map]
      exact countP_id_eq_one a _ hndf hmemf
    · intro b hb hbid
      rw [checkPriceAlerts_snd] at hb
      obtain ⟨x, hx, hxe⟩ := List.mem_map.mp hb
      have hxid : x.id = a.id := by
        by_cases hc : ((alerts.filter (alertTriggers pid newPrice)).any
            (fun t => x.id = t.id)) = true
        · rw [if_pos hc] at hxe
          rw [← hxe] at hbid
          exact hbid
        · rw [if_neg hc] at hxe
          rw [← hxe] at hbid
          exact hbid
      have hxa : x = a := hinj hx ha hxid
      subst hxa
      have hc : ((alerts.filter (alertTriggers pid newPrice)).any
          (fun t => x.id = t.id)) = true :=
        List.any_eq_true.mpr ⟨x, hmemf, by simp⟩
      rw [if_pos hc] at hxe
      rw [← hxe]
      rfl
  · intro hlt
    have htrig : alertTriggers pid newPrice a = false := by
      simp [alertTriggers, Nat.not_le.mpr hlt]
    have hnomem : ∀ t ∈ alerts.filter (alertTriggers pid newPrice), ¬ (t.id = a.id) := by
      intro t ht hteq
      have h1 := List.mem_filter.mp ht
      have hta : t = a := hinj h1.1 ha hteq
      rw [hta] at h1
      rw [htrig] at h1
      exact Bool.noConfusion h1.2
    constructor
    · rw [checkPriceAlerts_fst, List.countP_map]
      refine List.countP_eq_zero.mpr ?_
      intro t ht hteq
      exact hnomem t ht (by simpa using hteq)
    · intro b hb hbid
      rw [checkPriceAlerts_snd] at hb
      obtain ⟨x, hx, hxe⟩ := List.mem_map.mp hb
      have hxid : x.id = a.id := by
        by_cases hc : ((alerts.filter (alertTriggers pid newPrice)).any
            (fun t => x.id = t.id)) = true
        · rw [if_pos hc] at hxe
          rw [← hxe] at hbid
          exact hbid
        · rw [if_neg hc] at hxe
          rw [← hxe] at hbid
          exact hbid
      have hxa : x = a := hinj hx ha hxid
      subst hxa
      have hc : ((alerts.filter (alertTriggers pid newPrice)).any
          (fun t => x.id = t.id)) = false := by
        refine List.any_eq_false.mpr ?_
        intro t ht
        intro hteq
        exact hnomem t ht (Eq.symm (by simpa using hteq))
      rw [hc] at hxe
      rw [if_neg (show ¬ ((false : Bool) = true) by decide)] at hxe
      exact hxe.symm

/-- Witness for C3 at the concrete pair of alerts of the spec example:
targets 30000 and 25000 against a drop to 29000. -/
theorem C3_witness :
    ((29000 ≤ (demoAlert 1 30000 true).target_price →
        (checkPriceAlerts [demoAlert 1 30000 true, demoAlert 2 25000 true] 5 29000 77).1.countP
            (fun i => i.alert_id = (demoAlert 1 30000 true).id) = 1 ∧
        (∀ b ∈ (checkPriceAlerts [demoAlert 1 30000 true, demoAlert 2 25000 true] 5 29000 77).2,
            b.id = (demoAlert 1 30000 true).id → b.is_active = false)) ∧
      ((demoAlert 1 30000 true).target_price < 29000 →
        (checkPriceAlerts [demoAlert 1 30000 true, demoAlert 2 25000 true] 5 29000 77).1.countP
            (fun i => i.alert_id = (demoAlert 1 30000 true).id) = 0 ∧
        (∀ b ∈ (checkPriceAlerts [demoAlert 1 30000 true, demoAlert 2 25000 true] 5 29000 77).2,
            b.id = (demoAlert 1 30000 true).id → b = demoAlert 1 30000 true))) ∧
    ((29000 ≤ (demoAlert 2 25000 true).target_price →
        (checkPriceAlerts [demoAlert 1 30000 true, demoAlert 2 25000 true] 5 29000 77).1.countP
            (fun i => i.alert_id = (demoAlert 2 25000 true).id) = 1 ∧
        (∀ b ∈ (checkPriceAlerts [demoAlert 1 30000 true, demoAlert 2 25000 true] 5 29000 77).2,
            b.id = (demoAlert 2 25000 true).id → b.is_active = false)) ∧
      ((demoAlert 2 25000 true).target_price < 29000 →
        (checkPriceAlerts [demoAlert 1 30000 true, demoAlert 2 25000 true] 5 29000 77).1.countP
            (fun i => i.alert_id = (demoAlert 2 25000 true).id) = 0 ∧
        (∀ b ∈ (checkPriceAlerts [demoAlert 1 30000 true, demoAlert 2 25000 true] 5 29000 77).2,
            b.id = (demoAlert 2 25000 true).id → b = demoAlert 2 25000 true))) :=
  ⟨C3_alert_triggering [demoAlert 1 30000 true, demoAlert 2 25000 true] 5 29000 77
      (demoAlert 1 30000 true) (by decide) (by decide) rfl rfl,
   C3_alert_triggering [demoAlert 1 30000 true, demoAlert 2 25000 true] 5 29000 77
      (demoAlert 2 25000 true) (by decide) (by decide) rfl rfl⟩

/-- C4 counterexample: alerts do return to Active and do get deleted.
At a concrete deactivated (triggered) alert the UI toggle handler sets
`is_active` back to `true`, and the UI delete handler removes the
alert row, so the claim that Active → Triggered is the only transition
and that a triggered alert is never deleted is false on the code. -/
theorem C4_counterexample :
    handleToggleAlert [demoAlert 1 30000 false] 1 false 77
        = [{ id := 1, product_id := 5, user_id := 9, target_price := 30000,
             is_active := true, updated_at := 77 }] ∧
    handleDeleteAlert [demoAlert 1 30000 false] 1 = [] :=
  ⟨rfl, rfl⟩

/-- C4 amended: the automatic sweep's alert processing performs only
Active → Triggered — it deletes nothing (row count is preserved) and
every row it writes is either unchanged or deactivated, never
activated; but the UI handlers additionally allow any alert, in
particular a triggered one, to be toggled back to Active and to be
deleted, so re-enabling monitoring does not require creating a new
Alert. -/
theorem C4_amended :
    (∀ (alerts : List AlertRow) (pid np now : Nat),
        (checkPriceAlerts alerts pid np now).2.length = alerts.length ∧
        (∀ b ∈ (checkPriceAlerts alerts pid np now).2,
            ∃ a ∈ alerts, b = a ∨ b = deactivate now a)) ∧
    (∀ (alerts : List AlertRow) (a : AlertRow) (now : Nat),
        a ∈ alerts → a.is_active = false →
          { a with is_active := true, updated_at := now }
            ∈ handleToggleAlert alerts a.id false now) ∧
    (∀ (alerts : List AlertRow) (alertId : Nat) (b : AlertRow),
        b ∈ handleDeleteAlert alerts alertId → b.id ≠ alertId) := by
  refine ⟨?_, ?_, ?_⟩
  · intro alerts pid np now
    constructor
    · rw [checkPriceAlerts_snd, List.length_map]
    · intro b hb
      rw [checkPriceAlerts_snd] at hb
      obtain ⟨x, hx, hxe⟩ := List.mem_map.mp hb
      refine ⟨x, hx, ?_⟩
      by_cases hc : ((alerts.filter (alertTriggers pid np)).any
          (fun t => x.id = t.id)) = true
      · rw [if_pos hc] at hxe
        exact Or.inr hxe.symm
      · rw [if_neg hc] at hxe
        exact Or.inl hxe.symm
  · intro alerts a now ha _
    refine List.mem_map.mpr ⟨a, ha, ?_⟩
    simp
  · intro alerts alertId b hb
    have h := (List.mem_filter.mp hb).2
    simpa using h

/-- Witness for C4 at a concrete deactivated alert that the toggle
handler returns to Active. -/
theorem C4_witness :
    ({ demoAlert 1 30000 false with is_active := true, updated_at := 77 } : AlertRow)
        ∈ handleToggleAlert [demoAlert 1 30000 false] (demoAlert 1 30000 false).id false 77 :=
  C4_amended.2.1 [demoAlert 1 30000 false] (demoAlert 1 30000 false) 77 (by decide) rfl

theorem reconcile_newProduct_id (p : Product) (d : ScrapedData) (now : Nat) :
    (reconcile p d now).newProduct.id = p.id := rfl

theorem stepG_id (scrape : Product → Except String ScrapedData) (updateOk : Product → Bool)
    (now : Nat) (p r : Product) : (stepG scrape updateOk now p r).id = r.id := by
  rcases h : scrape p with e | d
  · simp [stepG, h]
  · by_cases hu : updateOk p = true
    · by_cases hr : r.id = p.id
      · simp [stepG, h, hu, hr, reconcile_newProduct_id]
      · simp [stepG, h, hu, hr]
    · simp [stepG, h, hu]

theorem processProduct_updatedCount (scrape : Product → Except String ScrapedData)
    (updateOk : Product → Bool) (now : Nat) (st : SweepState) (p : Product) :
    (processProduct scrape updateOk now st p).updatedCount
      = st.updatedCount + (if scrapeStepOk scrape updateOk p = true then 1 else 0) := by
  rcases h : scrape p with e | d
  · simp [processProduct, scrapeStepOk, h]
  · by_cases hu : updateOk p = true
    · have hok : scrapeStepOk scrape updateOk p = true := by simp [scrapeStepOk, h, hu]
      have hrhs : (if scrapeStepOk scrape updateOk p = true then 1 else 0) = 1 := by
        simp [hok]
      rw [hrhs]
      simp only [processProduct, h, hu, eq_self_iff_true, if_true]
      split <;> rfl
    · simp [processProduct, scrapeStepOk, h, hu]

theorem processProduct_errors (scrape : Product → Except String ScrapedData)
    (updateOk : Product → Bool) (now : Nat) (st : SweepState) (p : Product) :
    (processProduct scrape updateOk now st p).errors
      = st.errors ++ (if scrapeStepOk scrape updateOk p = true then []
          else [sweepErrMsg scrape p]) := by
  rcases h : scrape p with e | d
  · simp [processProduct, scrapeStepOk, sweepErrMsg, h]
  · by_cases hu : updateOk p = true
    · have hok : scrapeStepOk scrape updateOk p = true := by simp [scrapeStepOk, h, hu]
      have hrhs : (if scrapeStepOk scrape updateOk p = true then []
          else [sweepErrMsg scrape p]) = ([] : List String) := by
        simp [hok]
      rw [hrhs, List.append_nil]
      simp only [processProduct, h, hu, eq_self_iff_true, if_true]
      split <;> rfl
    · simp [processProduct, scrapeStepOk, sweepErrMsg, h, hu]

theorem processProduct_db (scrape : Product → Except String ScrapedData)
    (updateOk : Product → Bool) (now : Nat) (st : SweepState) (p : Product) :
    (processProduct scrape updateOk now st p).db
      = st.db.map (stepG scrape updateOk now p) := by
  rcases h : scrape p with e | d
  · have hg : stepG scrape updateOk now p = fun r => r := by
      funext r
      simp [stepG, h]
    simp [processProduct, h, hg]
  · by_cases hu : updateOk p = true
    · have hg : stepG scrape updateOk now p
          = fun r => if r.id = p.id then (reconcile p d now).newProduct else r := by
        funext r
        simp [stepG, h, hu]
      rw [hg]
      simp only [processProduct, h, hu, eq_self_iff_true, if_true]
      split <;> rfl
    · have hg : stepG scrape updateOk now p = fun r => r := by
        funext r
        simp [stepG, h, hu]
      simp [processProduct, h, hu, hg]

theorem sweep_foldl_spec (scrape : Product → Except String ScrapedData)
    (updateOk : Product → Bool) (now : Nat) :
    ∀ (products : List Product) (st : SweepState),
      ((products.foldl (processProduct scrape updateOk now) st).updatedCount
          = st.updatedCount + products.countP (scrapeStepOk scrape updateOk)) ∧
      ((products.foldl (processProduct scrape updateOk now) st).errors
          = st.errors
            ++ (products.filter (fun p => !(scrapeStepOk scrape updateOk p))).map
                (sweepErrMsg scrape)) ∧
      ((products.foldl (processProduct scrape updateOk now) st).db
          = st.db.map (fun r => products.foldl
              (fun x q => stepG scrape updateOk now q x) r)) := by
  intro products
  induction products with
  | nil =>
    intro st
    simp
  | cons p rest ih =>
    intro st
    obtain ⟨h1, h2, h3⟩ := ih (processProduct scrape updateOk now st p)
    refine ⟨?_, ?_, ?_⟩
    · rw [List.foldl_cons, h1, processProduct_updatedCount, List.countP_cons]
      by_cases h : scrapeStepOk scrape updateOk p = true
      · simp [h]
        omega
      · simp [h]
    · rw [List.foldl_cons, h2, processProduct_errors, List.filter_cons]
      by_cases h : scrapeStepOk scrape updateOk p = true <;> simp [h]
    · rw [List.foldl_cons, h3, processProduct_db, List.map_map]
      rfl

theorem foldl_stepG_id (scrape : Product → Except String ScrapedData)
    (updateOk : Product → Bool) (now : Nat) :
    ∀ (l : List Product) (r : Product),
      (l.foldl (fun x q => stepG scrape updateOk now q x) r).id = r.id := by
  intro l
  induction l with
  | nil => intro r; rfl
  | cons q rest ih =>
    intro r
    rw [List.foldl_cons, ih (stepG scrape updateOk now q r), stepG_id]

theorem foldl_stepG_skip (scrape : Product → Except String ScrapedData)
    (updateOk : Product → Bool) (now : Nat) :
    ∀ (l : List Product) (r : Product), (∀ q ∈ l, q.id ≠ r.id) →
      l.foldl (fun x q => stepG scrape updateOk now q x) r = r := by
  intro l
  induction l with
  | nil => intro r _; rfl
  | cons q rest ih =>
    intro r hq
    rw [List.foldl_cons]
    have hg : stepG scrape updateOk now q r = r := by
      rcases h : scrape q with e | d
      · simp [stepG, h]
      · by_cases hu : updateOk q = true
        · have hr : ¬ (r.id = q.id) := fun hr => hq q (List.mem_cons_self q rest) hr.symm
          simp [stepG, h, hu, hr]
        · simp [stepG, h, hu]
    rw [hg]
    exact ih r (fun x hx => hq x (List.mem_cons_of_mem q hx))

theorem foldl_stepG_hit (scrape : Product → Except String ScrapedData)
    (updateOk : Product → Bool) (now : Nat) (l1 l2 : List Product) (p : Product)
    (d : ScrapedData) (hok : scrape p = Except.ok d) (hupd : updateOk p = true)
    (h1 : ∀ q ∈ l1, q.id ≠ p.id) (h2 : ∀ q ∈ l2, q.id ≠ p.id)
    (r : Product) (hr : r.id = p.id) :
    (l1 ++ p :: l2).foldl (fun x q => stepG scrape updateOk now q x) r
      = (reconcile p d now).newProduct := by
  rw [List.foldl_append]
  rw [foldl_stepG_skip scrape updateOk now l1 r (fun q hq => by rw [hr]; exact h1 q hq)]
  rw [List.foldl_cons]
  have hg : stepG scrape updateOk now p r = (reconcile p d now).newProduct := by
    simp [stepG, hok, hupd, hr]
  rw [hg]
  exact foldl_stepG_skip scrape updateOk now l2 _ (fun q hq => by
    rw [reconcile_newProduct_id]
    exact h2 q hq)

/-- C5: a sweep is failure-isolated. Every queried item is processed:
the reported update count equals the number of items whose scrape and
database write both succeeded, each failing item contributes exactly
one error entry carrying its id (the error list is exactly the
failing items in order, mapped to their messages), successes plus
errors account for the whole list, and every item whose scrape and
write succeeded has its stored row reconciled regardless of other
items' failures. Product ids are assumed pairwise distinct, as for
database primary keys. -/
theorem C5_sweep_isolation (dbProducts : List Product) (dbAlerts : List AlertRow)
    (products : List Product) (scrape : Product → Except String ScrapedData)
    (updateOk : Product → Bool) (now : Nat)
    (hnd : (products.map Product.id).Nodup) :
    ((sweep dbProducts dbAlerts products scrape updateOk now).updatedCount
        = products.countP (scrapeStepOk scrape updateOk)) ∧
    ((sweep dbProducts dbAlerts products scrape updateOk now).errors
        = (products.filter (fun p => !(scrapeStepOk scrape updateOk p))).map
            (sweepErrMsg scrape)) ∧
    ((sweep dbProducts dbAlerts products scrape updateOk now).updatedCount
        + (sweep dbProducts dbAlerts products scrape updateOk now).errors.length
        = products.length) ∧
    (∀ p ∈ products, ∀ d, scrape p = Except.ok d → updateOk p = true →
        ∀ q ∈ (sweep dbProducts dbAlerts products scrape updateOk now).db,
          q.id = p.id → q = (reconcile p d now).newProduct) := by
  obtain ⟨h1, h2, h3⟩ := sweep_foldl_spec scrape updateOk now products
      { db := dbProducts, alerts := dbAlerts, updatedCount := 0, errors := [], intents := [] }
  have hc1 : (sweep dbProducts dbAlerts products scrape updateOk now).updatedCount
      = products.countP (scrapeStepOk scrape updateOk) := by
    unfold sweep
    simpa using h1
  have hc2 : (sweep dbProducts dbAlerts products scrape updateOk now).errors
      = (products.filter (fun p => !(scrapeStepOk scrape updateOk p))).map
          (sweepErrMsg scrape) := by
    unfold sweep
    simpa using h2
  refine ⟨hc1, hc2, ?_, ?_⟩
  · rw [hc1, hc2, List.length_map, ← List.countP_eq_length_filter]
    have hconv : (fun a => !(scrapeStepOk scrape updateOk a))
        = (fun a => decide ¬ (scrapeStepOk scrape updateOk a = true)) := by
      funext a
      cases hsa : scrapeStepOk scrape updateOk a <;> simp [hsa]
    rw [hconv, ← List.length_eq_countP_add_countP]
  · intro p hp d hok hupd q hq hqid
    have hdb : (sweep dbProducts dbAlerts products scrape updateOk now).db
        = dbProducts.map (fun r => products.foldl
            (fun x q => stepG scrape updateOk now q x) r) := by
      unfold sweep
      simpa using h3
    rw [hdb] at hq
    obtain ⟨r, hr, hre⟩ := List.mem_map.mp hq
    have hrid : r.id = p.id := by
      rw [← hre] at hqid
      rw [foldl_stepG_id] at hqid
      exact hqid
    obtain ⟨l1, l2, hsplit⟩ := List.append_of_mem hp
    have hnd2 : ((l1 ++ p :: l2).map Product.id).Nodup := by
      rw [← hsplit]
      exact hnd
    have hmid : (p.id :: (l1.map Product.id ++ l2.map Product.id)).Nodup := by
      rw [List.map_append, List.map_cons] at hnd2
      exact List.nodup_middle.mp hnd2
    have hpn : p.id ∉ l1.map Product.id ++ l2.map Product.id := (List.nodup_cons.mp hmid).1
    have hL1 : ∀ x ∈ l1, x.id ≠ p.id := by
      intro x hx he
      exact hpn (List.mem_append.mpr (Or.inl (he ▸ List.mem_map.mpr ⟨x, hx, rfl⟩)))
    have hL2 : ∀ x ∈ l2, x.id ≠ p.id := by
      intro x hx he
      exact hpn (List.mem_append.mpr (Or.inr (he ▸ List.mem_map.mpr ⟨x, hx, rfl⟩)))
    rw [← hre, hsplit]
    exact foldl_stepG_hit scrape updateOk now l1 l2 p d hok hupd hL1 hL2 r hrid

/-- Witness for C5 at the concrete three-item sweep of the spec
example where item 2 throws: successes plus errors account for all
three items. -/
theorem C5_witness :
    ((sweep demoProducts [] demoProducts demoScrape (fun _ => true) 1000).updatedCount
        = demoProducts.countP (scrapeStepOk demoScrape (fun _ => true))) ∧
    ((sweep demoProducts [] demoProducts demoScrape (fun _ => true) 1000).updatedCount
        + (sweep demoProducts [] demoProducts demoScrape (fun _ => true) 1000).errors.length
        = demoProducts.length) :=
  ⟨(C5_sweep_isolation demoProducts [] demoProducts demoScrape (fun _ => true) 1000
      (by decide)).1,
   (C5_sweep_isolation demoProducts [] demoProducts demoScrape (fun _ => true) 1000
      (by decide)).2.2.1⟩

end CfyTracker
